import Mathlib

/-!
Verification of the fontChanger extension core: a shallow embedding of the
settings store (`src/utils/storage.ts`), the style renderer and page applier
(content script), and the shared data model (`src/types/storage.ts`).

Modelling conventions:
* JavaScript numbers are modelled as rationals (`ℚ`); the claims under study
  never depend on binary floating-point artefacts.
* The browser's `chrome.storage.sync` document is modelled as an explicit
  `UserStorage` value threaded through every operation; each asynchronous
  read-modify-write becomes a pure state transformer.
* A JavaScript object used as a string-keyed map (`siteSettings`) is modelled
  as an association list with JavaScript object semantics: updating an
  existing key replaces its value in place, a new key is appended.
* The DOM style element owned by the content script is modelled as
  `Option String` (absent, or present with its CSS text).
-/

set_option maxRecDepth 16384

namespace FontChanger

/-- `SiteStyles` from `src/types/storage.ts`. -/
structure SiteStyles where
  lineHeight : ℚ
  letterSpacing : String
  wordSpacing : String
  fontWeight : String
  fontSizeScale : ℚ
deriving DecidableEq

/-- `SiteSettings` from `src/types/storage.ts`. -/
structure SiteSettings where
  isActive : Bool
  fontFamily : String
  styles : SiteStyles
deriving DecidableEq

/-- `StylePreset` from `src/types/storage.ts`. -/
structure StylePreset where
  id : String
  name : String
  fontFamily : String
  styles : SiteStyles
deriving DecidableEq

/-- `UserStorage` from `src/types/storage.ts`; `siteSettings` is the
string-keyed object modelled as an association list. -/
structure UserStorage where
  favoriteFonts : List String
  siteSettings : List (String × SiteSettings)
  presets : List StylePreset
deriving DecidableEq

/-- `DEFAULT_SITE_STYLES` from `src/types/storage.ts`. -/
def DEFAULT_SITE_STYLES : SiteStyles :=
  { lineHeight := 1.6
    letterSpacing := "0px"
    wordSpacing := "0px"
    fontWeight := "inherit"
    fontSizeScale := 1 }

/-- `DEFAULT_STORAGE` from `src/types/storage.ts`. -/
def DEFAULT_STORAGE : UserStorage :=
  { favoriteFonts := [], siteSettings := [], presets := [] }

/-- Model of JavaScript `String.prototype.trim`: strip whitespace from both
ends of the string. -/
def jsWhitespace (c : Char) : Bool :=
  c = ' ' ∨ c = '\t' ∨ c = '\n' ∨ c = '\r' ∨ c = '\x0b' ∨ c = '\x0c'

/-- Model of JavaScript `name.trim()`. -/
def jsTrim (s : String) : String :=
  String.mk (((s.data.dropWhile jsWhitespace).reverse.dropWhile jsWhitespace).reverse)

/-- JavaScript object property read `obj[key]` (with the source's
`|| null` giving `none` for an absent key). -/
def objGet (m : List (String × SiteSettings)) (key : String) : Option SiteSettings :=
  match m with
  | [] => none
  | (k, v) :: rest => if k = key then some v else objGet rest key

/-- JavaScript object property write `obj[key] = value`: replaces the value
of an existing key in place, appends a new key. -/
def objSet (m : List (String × SiteSettings)) (key : String) (v : SiteSettings) :
    List (String × SiteSettings) :=
  match m with
  | [] => [(key, v)]
  | (k, w) :: rest => if k = key then (k, v) :: rest else (k, w) :: objSet rest key v

/-- JavaScript `delete obj[key]`. -/
def objDelete (m : List (String × SiteSettings)) (key : String) :
    List (String × SiteSettings) :=
  match m with
  | [] => []
  | (k, w) :: rest => if k = key then rest else (k, w) :: objDelete rest key

/-! ## Settings store (`src/utils/storage.ts`)

Each `async` store operation reads the whole document and writes back the
updated field; here the document is passed and returned explicitly. -/

/-- `addFavoriteFont` (storage.ts lines 26-37): trim, reject empty or
duplicate, otherwise push and persist.  Returns the source's boolean
result together with the persisted document. -/
def addFavoriteFont (st : UserStorage) (fontName : String) : Bool × UserStorage :=
  let trimmedName := jsTrim fontName
  if trimmedName = "" ∨ trimmedName ∈ st.favoriteFonts then
    (false, st)
  else
    (true, { st with favoriteFonts := st.favoriteFonts ++ [trimmedName] })

/-- `removeFavoriteFont` (storage.ts lines 40-44). -/
def removeFavoriteFont (st : UserStorage) (fontName : String) : UserStorage :=
  { st with favoriteFonts := st.favoriteFonts.filter (fun f => f ≠ fontName) }

/-- `getSiteSettings` (storage.ts lines 47-50): `storage.siteSettings[domain] || null`. -/
def getSiteSettings (st : UserStorage) (domain : String) : Option SiteSettings :=
  objGet st.siteSettings domain

/-- `setSiteSettings` (storage.ts lines 53-60): upsert of the domain entry. -/
def setSiteSettings (st : UserStorage) (domain : String) (settings : SiteSettings) :
    UserStorage :=
  { st with siteSettings := objSet st.siteSettings domain settings }

/-- `removeSite` (storage.ts lines 63-67). -/
def removeSite (st : UserStorage) (domain : String) : UserStorage :=
  { st with siteSettings := objDelete st.siteSettings domain }

/-- `createDefaultSiteSettings` (storage.ts lines 70-76). -/
def createDefaultSiteSettings (fontFamily : String) : SiteSettings :=
  { isActive := true, fontFamily := fontFamily, styles := DEFAULT_SITE_STYLES }

/-- Result of the browser's WHATWG `new URL(...)` constructor, which the
source treats as an external capability: the parsed protocol (scheme with
trailing colon, as in the `URL.protocol` getter) and hostname. -/
structure URLObj where
  protocol : String
  hostname : String

/-- `extractDomain` (storage.ts lines 79-93), parameterised by the browser's
URL parser `parseURL` (`new URL(url)` returning `none` models the thrown
`TypeError` caught by the source's `catch`). -/
def extractDomain (parseURL : String → Option URLObj) (url : String) : Option String :=
  match parseURL url with
  | none => none
  | some urlObj =>
      if urlObj.protocol = "chrome:" ∨ urlObj.protocol = "edge:" ∨
         urlObj.protocol = "about:" ∨ urlObj.protocol = "chrome-extension:" then
        none
      else
        some urlObj.hostname

/-- Base-36 digit characters used by JavaScript `Number.prototype.toString(36)`. -/
def b36Digit (n : Nat) : Char :=
  ("0123456789abcdefghijklmnopqrstuvwxyz".data).getD n '0'

/-- Base-36 rendering of a natural number (fuelled division loop; the fuel
`n+1` always suffices). -/
def natToB36Go : Nat → Nat → List Char
  | 0, _ => []
  | fuel + 1, n => if n = 0 then [] else natToB36Go fuel (n / 36) ++ [b36Digit (n % 36)]

/-- Model of JavaScript `n.toString(36)` for a nonnegative integer. -/
def natToB36 (n : Nat) : String :=
  if n = 0 then "0" else String.mk (natToB36Go (n + 1) n)

/-- `generateId` (storage.ts lines 96-98):
`Date.now().toString(36) + Math.random().toString(36).substr(2)`.
The environment inputs are explicit: `now` is the clock reading and
`rand` the base-36 digit string of the random draw after the `0.` prefix. -/
def generateId (now : Nat) (rand : String) : String :=
  natToB36 now ++ rand

/-- `addPreset` (storage.ts lines 101-116).  `{ ...styles }` is a deep copy;
with value semantics the copied record simply equals `styles`.  Returns the
created preset (the source's return value) and the persisted document. -/
def addPreset (now : Nat) (rand : String) (st : UserStorage)
    (name : String) (fontFamily : String) (styles : SiteStyles) :
    StylePreset × UserStorage :=
  let newPreset : StylePreset :=
    { id := generateId now rand
      name := jsTrim name
      fontFamily := fontFamily
      styles := styles }
  (newPreset, { st with presets := st.presets ++ [newPreset] })

/-- `removePreset` (storage.ts lines 119-123). -/
def removePreset (st : UserStorage) (presetId : String) : UserStorage :=
  { st with presets := st.presets.filter (fun p => p.id ≠ presetId) }

/-- `updatePreset` (storage.ts lines 126-143): find by id; if absent the
source never calls `setStorage`, so the document is unchanged; otherwise the
indexed entry is replaced by the spread-updated record (the spread of the old
record keeps `id`). -/
def updatePreset (st : UserStorage) (presetId : String) (name : String)
    (fontFamily : String) (styles : SiteStyles) : UserStorage :=
  match st.presets.findIdx? (fun p => p.id = presetId) with
  | none => st
  | some index =>
      match st.presets[index]? with
      | none => st
      | some p =>
          { st with
            presets := st.presets.set index
              { p with name := jsTrim name, fontFamily := fontFamily, styles := styles } }

/-! ## Number-to-string rendering

Models of the JavaScript number formatting used by the renderer:
`toFixed(0)` for the font-size percentage and default template-literal
stringification for `lineHeight`. -/

/-- Decimal digit characters. -/
def decDigit (n : Nat) : Char :=
  ("0123456789".data).getD n '0'

/-- Decimal rendering loop (fuelled division; fuel `n+1` always suffices). -/
def natToDecGo : Nat → Nat → List Char
  | 0, _ => []
  | fuel + 1, n => if n = 0 then [] else natToDecGo fuel (n / 10) ++ [decDigit (n % 10)]

/-- Decimal rendering of a natural number. -/
def natToDec (n : Nat) : String :=
  if n = 0 then "0" else String.mk (natToDecGo (n + 1) n)

/-- Decimal rendering of an integer. -/
def intToDec (i : Int) : String :=
  if i < 0 then "-" ++ natToDec i.natAbs else natToDec i.natAbs

/-- Rounding performed by JavaScript `x.toFixed(0)` (ES `Number.prototype.toFixed`:
for negative input the sign is split off first; ties pick the larger candidate). -/
def jsRound0 (q : ℚ) : Int :=
  if q < 0 then -⌊-q + 1 / 2⌋ else ⌊q + 1 / 2⌋

/-- Digits of the fractional part `0 ≤ q < 1` (fuelled; JavaScript prints at
most 17 significant digits, any fixed fuel bound serves the model). -/
def fracGo : Nat → ℚ → List Char
  | 0, _ => []
  | fuel + 1, q =>
      if q = 0 then []
      else decDigit (Int.toNat ⌊q * 10⌋) :: fracGo fuel (q * 10 - (⌊q * 10⌋ : ℤ))

/-- Model of the default JavaScript number-to-string conversion used by a
template literal such as the source's interpolation of `styles.lineHeight`. -/
def jsNumToString (q : ℚ) : String :=
  (if q < 0 then "-" else "") ++ natToDec (Int.toNat ⌊|q|⌋) ++
    (if |q| - (⌊|q|⌋ : ℤ) = 0 then "" else "." ++ String.mk (fracGo 20 (|q| - (⌊|q|⌋ : ℤ))))

/-! ## Style renderer (content script, `generateCSS`) -/

/-- `iconExclusions` (content script lines 15-34), exactly the source list. -/
def iconExclusions : List String :=
  [ "i",
    "[class*=\"icon\"]",
    "[class*=\"Icon\"]",
    "[class*=\"fa-\"]",
    "[class*=\"fa \"]",
    "[class*=\"fas \"]",
    "[class*=\"far \"]",
    "[class*=\"fab \"]",
    "[class*=\"material-icons\"]",
    "[class*=\"glyphicon\"]",
    "[class*=\"emoji\"]",
    "svg",
    "svg *",
    "code",
    "pre",
    "kbd",
    ".mono",
    "[class*=\"monospace\"]" ]

/-- `notSelectors` (content script line 36):
`iconExclusions.map(s => ':not(' + s + ')').join('')`. -/
def notSelectors : String :=
  String.join (iconExclusions.map (fun s => ":not(" ++ s ++ ")"))

/-- `fontSizePercent` (content script line 37):
`((styles.fontSizeScale || 1) * 100).toFixed(0)`; a zero scale is falsy. -/
def fontSizePercent (fontSizeScale : ℚ) : String :=
  intToDec (jsRound0 ((if fontSizeScale = 0 then 1 else fontSizeScale) * 100))

/-- `fontWeightCSS` (content script lines 40-42). -/
def fontWeightCSS (fontWeight : String) : String :=
  if fontWeight = "inherit" then "" else "font-weight: " ++ fontWeight ++ " !important;"

/-- `generateCSS` (content script lines 11-58): the returned template literal,
with each interpolation spliced in source order. -/
def generateCSS (settings : SiteSettings) : String :=
  "\n    html \x7b\n      font-size: " ++ fontSizePercent settings.styles.fontSizeScale ++
  "% !important;\n    \x7d\n    *" ++ notSelectors ++
  " \x7b\n      font-family: \"" ++ settings.fontFamily ++
  "\", sans-serif !important;\n      line-height: " ++ jsNumToString settings.styles.lineHeight ++
  " !important;\n      letter-spacing: " ++ settings.styles.letterSpacing ++
  " !important;\n      word-spacing: " ++ settings.styles.wordSpacing ++
  " !important;\n      " ++ fontWeightCSS settings.styles.fontWeight ++
  "\n    \x7d\n  "

/-- The root-element rule of `generateCSS` (the `html` block together with the
indentation that precedes the next selector). -/
def cssHtmlRule (settings : SiteSettings) : String :=
  "\n    html \x7b\n      font-size: " ++ fontSizePercent settings.styles.fontSizeScale ++
  "% !important;\n    \x7d\n    "

/-- The selector of the element-wide rule of `generateCSS`. -/
def elementSelector : String :=
  "*" ++ notSelectors

/-- The element-wide rule of `generateCSS`: the rule carrying `font-family`,
`line-height`, `letter-spacing` and `word-spacing`. -/
def cssElementRule (settings : SiteSettings) : String :=
  elementSelector ++
  " \x7b\n      font-family: \"" ++ settings.fontFamily ++
  "\", sans-serif !important;\n      line-height: " ++ jsNumToString settings.styles.lineHeight ++
  " !important;\n      letter-spacing: " ++ settings.styles.letterSpacing ++
  " !important;\n      word-spacing: " ++ settings.styles.wordSpacing ++
  " !important;\n      " ++ fontWeightCSS settings.styles.fontWeight ++
  "\n    \x7d\n  "

theorem generateCSS_eq_rules (settings : SiteSettings) :
    generateCSS settings = cssHtmlRule settings ++ cssElementRule settings := by
  have hsplit : ("% !important;\n    \x7d\n    *" : String) =
      "% !important;\n    \x7d\n    " ++ "*" := by decide
  simp only [generateCSS, cssHtmlRule, cssElementRule, elementSelector, hsplit,
    String.append_assoc]

/-! ## Page applier (content script) -/

/-- The message type from `src/types/storage.ts` (`ApplyStylesMessage`);
`settings: SiteSettings | null` becomes an `Option`. -/
structure ApplyStylesMessage where
  action : String
  domain : String
  settings : Option SiteSettings

/-- `injectStyles` (content script lines 61-71): removes any prior element
and installs a fresh one whose text is `generateCSS settings`.  The DOM is
modelled as the optional content of the extension's style element. -/
def injectStyles (settings : SiteSettings) (_dom : Option String) : Option String :=
  some (generateCSS settings)

/-- `removeStyles` (content script lines 74-79). -/
def removeStyles (_dom : Option String) : Option String :=
  none

/-- The `chrome.runtime.onMessage` listener (content script lines 104-118).
Returns the new DOM state and whether `sendResponse` was invoked. -/
def onMessage (message : ApplyStylesMessage) (dom : Option String) :
    Option String × Bool :=
  if message.action = "APPLY_STYLES" then
    match message.settings with
    | some s => (injectStyles s dom, true)
    | none => (removeStyles dom, true)
  else
    (dom, false)

/-- `loadAndApplySettings` (content script lines 82-101), success path: the
stored `siteSettings` map is read and the current domain's entry applied only
when present and `isActive`. -/
def loadAndApplySettings (domain : String) (siteSettings : List (String × SiteSettings))
    (dom : Option String) : Option String :=
  match objGet siteSettings domain with
  | some s => if s.isActive then injectStyles s dom else removeStyles dom
  | none => removeStyles dom

/-! ## Substring occurrence counting

`countSub P l` counts the positions of `l` at which the pattern `P` occurs
(possibly overlapping).  The append lemmas below split a count across a
concatenation whenever no occurrence can straddle the seam, which is
guaranteed as soon as the character on one (concrete) side of the seam does
not occur in the pattern at all. -/

/-- Number of positions of `l` at which the pattern `P` starts an occurrence. -/
def countSub (P : List Char) : List Char → Nat
  | [] => 0
  | c :: cs => (if P <+: c :: cs then 1 else 0) + countSub P cs

theorem countSub_nil (P : List Char) : countSub P [] = 0 := rfl

theorem countSub_cons (P : List Char) (c : Char) (l : List Char) :
    countSub P (c :: l) = (if P <+: c :: l then 1 else 0) + countSub P l := rfl

/-- A prefix of an append either stays inside the left part or covers it wholly. -/
theorem prefixAppendCases {P X Y : List Char} (h : P <+: X ++ Y) :
    P <+: X ∨ ∃ Q, P = X ++ Q ∧ Q <+: Y := by
  obtain ⟨t, ht⟩ := h
  rcases List.append_eq_append_iff.mp ht with ⟨a, h1, _⟩ | ⟨q, h1, h2⟩
  · exact Or.inl ⟨a, h1.symm⟩
  · exact Or.inr ⟨q, h1, ⟨t, h2.symm⟩⟩

/-- If the first character of `Y` does not occur in `P`, an occurrence of `P`
at the start of `X ++ Y` lies inside `X`. -/
theorem prefAppendIffOfSafeHead (P X Y : List Char) (c : Char)
    (hY : Y.head? = some c) (hc : c ∉ P) : P <+: X ++ Y ↔ P <+: X := by
  constructor
  · intro h
    rcases prefixAppendCases h with h' | ⟨Q, hQ, hpre⟩
    · exact h'
    · cases Q with
      | nil =>
          rw [List.append_nil] at hQ
          exact hQ ▸ List.prefix_rfl
      | cons d ds =>
          obtain ⟨t, ht⟩ := hpre
          have hd : Y.head? = some d := by rw [← ht]; rfl
          rw [hY] at hd
          injection hd with hd
          have hdP : d ∈ P := by
            rw [hQ]; exact List.mem_append.mpr (Or.inr (List.mem_cons_self d ds))
          exact absurd hdP (hd ▸ hc)
  · intro h
    exact h.trans (List.prefix_append X Y)

/-- If the last character of `X` does not occur in `P`, an occurrence of `P`
at the start of `X ++ Y` lies inside `X`. -/
theorem prefAppendIffOfSafeLast (P X Y : List Char) (c : Char)
    (hX : X.getLast? = some c) (hc : c ∉ P) : P <+: X ++ Y ↔ P <+: X := by
  constructor
  · intro h
    rcases prefixAppendCases h with h' | ⟨Q, hQ, _⟩
    · exact h'
    · have hXne : X ≠ [] := by
        intro he
        rw [he] at hX
        simp at hX
      have hmem : c ∈ X := by
        rw [List.getLast?_eq_getLast X hXne] at hX
        injection hX with h2
        exact h2 ▸ List.getLast_mem hXne
      exact absurd (hQ ▸ List.mem_append.mpr (Or.inl hmem)) hc
  · intro h
    exact h.trans (List.prefix_append X Y)

/-- Occurrence count across a seam whose right side starts with a character
absent from the pattern. -/
theorem countSub_append_of_safeHead (P X Y : List Char) (c : Char)
    (hY : Y.head? = some c) (hc : c ∉ P) :
    countSub P (X ++ Y) = countSub P X + countSub P Y := by
  induction X with
  | nil => simp [countSub]
  | cons d ds ih =>
      have hiff : P <+: (d :: ds) ++ Y ↔ P <+: d :: ds :=
        prefAppendIffOfSafeHead P (d :: ds) Y c hY hc
      simp only [List.cons_append] at hiff ⊢
      rw [countSub_cons, ih, countSub_cons P d ds]
      by_cases hp : P <+: d :: ds
      · rw [if_pos (hiff.mpr hp), if_pos hp]
        try omega
      · rw [if_neg (fun h => hp (hiff.mp h)), if_neg hp]
        try omega

/-- Occurrence count across a seam whose left side ends with a character
absent from the pattern. -/
theorem countSub_append_of_safeLast (P : List Char) :
    ∀ (X Y : List Char) (c : Char), X.getLast? = some c → c ∉ P →
      countSub P (X ++ Y) = countSub P X + countSub P Y
  | [], _, c, hX, _ => by simp at hX
  | [d], Y, c, hX, hc => by
      have hiff : P <+: [d] ++ Y ↔ P <+: [d] :=
        prefAppendIffOfSafeLast P [d] Y c hX hc
      simp only [List.cons_append, List.nil_append] at hiff ⊢
      rw [countSub_cons, countSub_cons P d [], countSub_nil]
      by_cases hp : P <+: [d]
      · rw [if_pos (hiff.mpr hp), if_pos hp]
        try omega
      · rw [if_neg (fun h => hp (hiff.mp h)), if_neg hp]
        try omega
  | d :: e :: es, Y, c, hX, hc => by
      have hX' : (e :: es).getLast? = some c := by simpa using hX
      have ih := countSub_append_of_safeLast P (e :: es) Y c hX' hc
      have hiff : P <+: (d :: e :: es) ++ Y ↔ P <+: d :: e :: es :=
        prefAppendIffOfSafeLast P (d :: e :: es) Y c hX hc
      simp only [List.cons_append] at ih hiff ⊢
      rw [countSub_cons, ih]
      conv_rhs => rw [countSub_cons]
      by_cases hp : P <+: d :: e :: es
      · rw [if_pos (hiff.mpr hp), if_pos hp]
        try omega
      · rw [if_neg (fun h => hp (hiff.mp h)), if_neg hp]
        try omega

/-- A pattern containing a character absent from `l` never occurs in `l`. -/
theorem countSub_eq_zero_of_missingChar {P : List Char} (c : Char) (hc : c ∈ P) :
    ∀ (l : List Char), c ∉ l → countSub P l = 0
  | [], _ => rfl
  | d :: ds, hl => by
      have h1 : ¬ P <+: d :: ds := fun h => hl (h.subset hc)
      have h2 := countSub_eq_zero_of_missingChar c hc ds
        (fun hm => hl (List.mem_cons_of_mem d hm))
      simp [countSub, h1, h2]

/-- A nonempty pattern occurs somewhere iff its occurrence count is positive. -/
theorem countSub_pos_iff {P : List Char} (hP : P ≠ []) :
    ∀ (l : List Char), 0 < countSub P l ↔ P <:+: l
  | [] => by simp [countSub, hP]
  | c :: cs => by
      have ih := countSub_pos_iff hP cs
      simp only [countSub]
      rw [List.infix_cons_iff]
      by_cases hp : P <+: c :: cs
      · simp [hp]
      · simp only [if_neg hp, Nat.zero_add]
        rw [ih]
        constructor
        · exact Or.inr
        · rintro (h | h)
          · exact absurd h hp
          · exact h

theorem not_infix_of_countSub_eq_zero {P l : List Char} (hP : P ≠ [])
    (h : countSub P l = 0) : ¬ P <:+: l := fun hin => by
  have := (countSub_pos_iff hP l).mpr hin
  omega

/-! ## Character inventories of the rendered numbers -/

/-- `List.getD` returns a member of the list or the default. -/
theorem getD_mem_or_eq : ∀ (l : List Char) (n : Nat) (d : Char),
    l.getD n d ∈ l ∨ l.getD n d = d
  | [], _, _ => Or.inr rfl
  | c :: _, 0, _ => Or.inl (List.mem_cons_self _ _)
  | _ :: cs, n + 1, d => by
      rcases getD_mem_or_eq cs n d with h | h
      · exact Or.inl (List.mem_cons_of_mem _ (by simpa using h))
      · exact Or.inr (by simpa using h)

theorem decDigit_mem (k : Nat) : decDigit k ∈ "0123456789".data := by
  rcases getD_mem_or_eq "0123456789".data k '0' with h | h
  · exact h
  · rw [decDigit, h]; decide

theorem natToDecGo_mem : ∀ (fuel n : Nat), ∀ c ∈ natToDecGo fuel n, c ∈ "0123456789".data
  | 0, _ => by simp [natToDecGo]
  | fuel + 1, n => by
      intro c hc
      simp only [natToDecGo] at hc
      by_cases h : n = 0
      · simp [h] at hc
      · rw [if_neg h] at hc
        rcases List.mem_append.mp hc with h1 | h1
        · exact natToDecGo_mem fuel (n / 10) c h1
        · have : c = decDigit (n % 10) := by simpa using h1
          rw [this]
          exact decDigit_mem _

theorem natToDec_mem (n : Nat) : ∀ c ∈ (natToDec n).data, c ∈ "0123456789".data := by
  intro c hc
  unfold natToDec at hc
  by_cases h : n = 0
  · rw [if_pos h] at hc
    have : c = '0' := by simpa using hc
    rw [this]; decide
  · rw [if_neg h] at hc
    exact natToDecGo_mem (n + 1) n c hc

theorem intToDec_mem (i : Int) : ∀ c ∈ (intToDec i).data, c ∈ "-0123456789".data := by
  intro c hc
  unfold intToDec at hc
  by_cases h : i < 0
  · rw [if_pos h, String.data_append] at hc
    rcases List.mem_append.mp hc with h1 | h1
    · have : c = '-' := by simpa using h1
      rw [this]; decide
    · exact List.mem_cons_of_mem '-' (natToDec_mem _ c h1)
  · rw [if_neg h] at hc
    exact List.mem_cons_of_mem '-' (natToDec_mem _ c hc)

theorem fontSizePercent_mem (q : ℚ) :
    ∀ c ∈ (fontSizePercent q).data, c ∈ "-0123456789".data :=
  fun c hc => intToDec_mem _ c hc

theorem fracGo_mem : ∀ (fuel : Nat) (q : ℚ), ∀ c ∈ fracGo fuel q, c ∈ "0123456789".data
  | 0, _ => by simp [fracGo]
  | fuel + 1, q => by
      intro c hc
      simp only [fracGo] at hc
      by_cases h : q = 0
      · simp [h] at hc
      · rw [if_neg h] at hc
        rcases List.mem_cons.mp hc with h1 | h1
        · rw [h1]; exact decDigit_mem _
        · exact fracGo_mem fuel _ c h1

theorem jsNumToString_mem (q : ℚ) :
    ∀ c ∈ (jsNumToString q).data, c ∈ "-.0123456789".data := by
  intro c hc
  unfold jsNumToString at hc
  simp only [String.data_append] at hc
  rcases List.mem_append.mp hc with h1 | h1
  · rcases List.mem_append.mp h1 with h2 | h2
    · by_cases hq : q < 0
      · rw [if_pos hq] at h2
        have : c = '-' := by simpa using h2
        rw [this]; decide
      · rw [if_neg hq] at h2
        simp at h2
    · exact List.mem_cons_of_mem '-' (List.mem_cons_of_mem '.' (natToDec_mem _ c h2))
  · by_cases hz : |q| - ((⌊|q|⌋ : ℤ) : ℚ) = 0
    · rw [if_pos hz] at h1
      simp at h1
    · rw [if_neg hz, String.data_append] at h1
      rcases List.mem_append.mp h1 with h2 | h2
      · have : c = '.' := by simpa using h2
        rw [this]; decide
      · exact List.mem_cons_of_mem '-'
          (List.mem_cons_of_mem '.' (fracGo_mem _ _ c h2))

/-! ## Seam decomposition of the rendered CSS

The fixed text fragments of the `generateCSS` template, named so that the
occurrence count of a pattern can be split across the interpolation seams. -/

def cssLit0 : String := "\n    html \x7b\n      font-size: "

def cssLit1 : String := "% !important;\n    \x7d\n    "

def cssLit2 : String := " \x7b\n      font-family: \""

def cssLit3 : String := "\", sans-serif !important;\n      line-height: "

def cssLit4 : String := " !important;\n      letter-spacing: "

def cssLit5 : String := " !important;\n      word-spacing: "

def cssLit6 : String := " !important;\n      "

def cssLit7 : String := "\n    \x7d\n  "

theorem cssHtmlRule_data (s : SiteSettings) :
    (cssHtmlRule s).data =
      cssLit0.data ++ ((fontSizePercent s.styles.fontSizeScale).data ++ cssLit1.data) := by
  simp [cssHtmlRule, cssLit0, cssLit1]

theorem cssElementRule_data (s : SiteSettings) :
    (cssElementRule s).data =
      elementSelector.data ++ (cssLit2.data ++ (s.fontFamily.data ++ (cssLit3.data ++
        ((jsNumToString s.styles.lineHeight).data ++ (cssLit4.data ++
          (s.styles.letterSpacing.data ++ (cssLit5.data ++
            (s.styles.wordSpacing.data ++ (cssLit6.data ++
              ((fontWeightCSS s.styles.fontWeight).data ++ cssLit7.data)))))))))) := by
  simp [cssElementRule, cssLit2, cssLit3, cssLit4, cssLit5, cssLit6, cssLit7]

/-- Splitting the occurrence count of a pattern over the two rules of the
rendered CSS: sound for every pattern avoiding the blank character. -/
theorem countSub_generateCSS_split (P : List Char) (s : SiteSettings)
    (hsp : ' ' ∉ P) :
    countSub P (generateCSS s).data =
      countSub P (cssHtmlRule s).data + countSub P (cssElementRule s).data := by
  have hlast : (cssHtmlRule s).data.getLast? = some ' ' := by
    rw [cssHtmlRule_data]
    simp only [List.getLast?_append]
    rw [show cssLit1.data.getLast? = some ' ' from by decide]
    rfl
  rw [generateCSS_eq_rules, String.data_append]
  exact countSub_append_of_safeLast P (cssHtmlRule s).data (cssElementRule s).data
    ' ' hlast hsp

/-- Occurrence count of a pattern in the root rule, split at the seams of the
interpolated percentage. -/
theorem countSub_cssHtmlRule (P : List Char) (s : SiteSettings)
    (hsp : ' ' ∉ P) (hpc : '%' ∉ P) :
    countSub P (cssHtmlRule s).data =
      countSub P cssLit0.data +
      countSub P (fontSizePercent s.styles.fontSizeScale).data +
      countSub P cssLit1.data := by
  rw [cssHtmlRule_data]
  rw [countSub_append_of_safeLast P cssLit0.data _ ' ' (by decide) hsp]
  have h1 : ∀ X : List Char, countSub P (X ++ cssLit1.data) =
      countSub P X + countSub P cssLit1.data :=
    fun X => countSub_append_of_safeHead P X cssLit1.data '%' rfl hpc
  rw [h1]
  omega

/-- Occurrence count of a pattern in the element-wide rule, split at the
seams of every interpolated field. -/
theorem countSub_cssElementRule (P : List Char) (s : SiteSettings)
    (hsp : ' ' ∉ P) (hq : '"' ∉ P) (hrp : ')' ∉ P) (hnl : '\n' ∉ P) :
    countSub P (cssElementRule s).data =
      countSub P elementSelector.data + countSub P cssLit2.data +
      countSub P s.fontFamily.data + countSub P cssLit3.data +
      countSub P (jsNumToString s.styles.lineHeight).data + countSub P cssLit4.data +
      countSub P s.styles.letterSpacing.data + countSub P cssLit5.data +
      countSub P s.styles.wordSpacing.data + countSub P cssLit6.data +
      countSub P (fontWeightCSS s.styles.fontWeight).data + countSub P cssLit7.data := by
  have h3 : ∀ X Y : List Char, countSub P (X ++ (cssLit3.data ++ Y)) =
      countSub P X + countSub P (cssLit3.data ++ Y) :=
    fun X Y => countSub_append_of_safeHead P X (cssLit3.data ++ Y) '"' rfl hq
  have h4 : ∀ X Y : List Char, countSub P (X ++ (cssLit4.data ++ Y)) =
      countSub P X + countSub P (cssLit4.data ++ Y) :=
    fun X Y => countSub_append_of_safeHead P X (cssLit4.data ++ Y) ' ' rfl hsp
  have h5 : ∀ X Y : List Char, countSub P (X ++ (cssLit5.data ++ Y)) =
      countSub P X + countSub P (cssLit5.data ++ Y) :=
    fun X Y => countSub_append_of_safeHead P X (cssLit5.data ++ Y) ' ' rfl hsp
  have h6 : ∀ X Y : List Char, countSub P (X ++ (cssLit6.data ++ Y)) =
      countSub P X + countSub P (cssLit6.data ++ Y) :=
    fun X Y => countSub_append_of_safeHead P X (cssLit6.data ++ Y) ' ' rfl hsp
  have h7 : ∀ X : List Char, countSub P (X ++ cssLit7.data) =
      countSub P X + countSub P cssLit7.data :=
    fun X => countSub_append_of_safeHead P X cssLit7.data '\n' rfl hnl
  rw [cssElementRule_data]
  rw [countSub_append_of_safeLast P elementSelector.data _ ')' (by decide) hrp]
  rw [countSub_append_of_safeLast P cssLit2.data _ '"' (by decide) hq]
  rw [h3]
  rw [countSub_append_of_safeLast P cssLit3.data _ ' ' (by decide) hsp]
  rw [h4]
  rw [countSub_append_of_safeLast P cssLit4.data _ ' ' (by decide) hsp]
  rw [h5]
  rw [countSub_append_of_safeLast P cssLit5.data _ ' ' (by decide) hsp]
  rw [h6]
  rw [countSub_append_of_safeLast P cssLit6.data _ ' ' (by decide) hsp]
  rw [h7]
  omega

/-- Occurrence count inside the rendered `font-weight` declaration (the
non-`inherit` branch of `fontWeightCSS`). -/
theorem countSub_fontWeightCSS (P : List Char) (w : String) (hw : ¬ w = "inherit")
    (hsp : ' ' ∉ P) :
    countSub P (fontWeightCSS w).data =
      countSub P "font-weight: ".data + countSub P w.data +
      countSub P " !important;".data := by
  rw [fontWeightCSS, if_neg hw]
  rw [String.data_append, String.data_append, List.append_assoc]
  rw [countSub_append_of_safeLast P "font-weight: ".data _ ' ' (by decide) hsp]
  have h1 : ∀ X : List Char, countSub P (X ++ " !important;".data) =
      countSub P X + countSub P " !important;".data :=
    fun X => countSub_append_of_safeHead P X " !important;".data ' ' rfl hsp
  rw [h1]
  omega

/-- Deep (structural, field-by-field) equality of two `SiteSettings` values,
the "deep-equal" notion used by the specification. -/
def SiteSettings.deepEq (a b : SiteSettings) : Bool :=
  a.isActive = b.isActive ∧ a.fontFamily = b.fontFamily ∧
  a.styles.lineHeight = b.styles.lineHeight ∧
  a.styles.letterSpacing = b.styles.letterSpacing ∧
  a.styles.wordSpacing = b.styles.wordSpacing ∧
  a.styles.fontWeight = b.styles.fontWeight ∧
  a.styles.fontSizeScale = b.styles.fontSizeScale

/-! ## Shared helper lemmas and concrete evaluation facts -/

theorem countSub_eq_zero_iff {P : List Char} (hP : P ≠ []) (l : List Char) :
    countSub P l = 0 ↔ ¬ P <:+: l := by
  rw [← countSub_pos_iff hP l]
  omega

theorem infix_append_left {P Y : List Char} (X : List Char) (h : P <:+: Y) :
    P <:+: X ++ Y := by
  obtain ⟨u, v, huv⟩ := h
  exact ⟨X ++ u, v, by rw [← huv]; simp⟩

theorem objGet_objSet (m : List (String × SiteSettings)) (key : String) (v : SiteSettings) :
    objGet (objSet m key v) key = some v := by
  induction m with
  | nil => simp [objSet, objGet]
  | cons kv rest ih =>
      obtain ⟨k, w⟩ := kv
      by_cases h : k = key
      · simp [objSet, objGet, h]
      · simp [objSet, objGet, h, ih]

theorem fontWeightCSS_inherit : fontWeightCSS "inherit" = "" := by decide

theorem fontSizePercent_zero : fontSizePercent 0 = "100" := by
  rw [fontSizePercent, if_pos rfl, jsRound0, if_neg (by norm_num)]
  rw [show ⌊(1 : ℚ) * 100 + 1 / 2⌋ = 100 from by norm_num]
  decide

theorem jsNumToString_two : jsNumToString 2 = "2" := by
  rw [jsNumToString, if_neg (by norm_num)]
  rw [show |(2 : ℚ)| = 2 from by norm_num]
  rw [show ⌊(2 : ℚ)⌋ = 2 from by norm_num]
  rw [if_pos (by norm_num)]
  decide

/-! ## Claim theorems: settings store -/

/-- C1: `addFavoriteFont` trims whitespace from the name; if the trimmed name
is empty or already present (exact match) it returns `false` and leaves the
persisted document unchanged; otherwise it appends the trimmed name and
returns `true`.  Consequently two calls with `"Pretendard"` leave the
favourite list containing `"Pretendard"` exactly once. -/
theorem addFavoriteFont_spec (st : UserStorage) (name : String) :
    (jsTrim name = "" ∨ jsTrim name ∈ st.favoriteFonts →
      addFavoriteFont st name = (false, st)) ∧
    (¬ (jsTrim name = "" ∨ jsTrim name ∈ st.favoriteFonts) →
      addFavoriteFont st name =
        (true, { st with favoriteFonts := st.favoriteFonts ++ [jsTrim name] })) ∧
    (List.count "Pretendard" st.favoriteFonts ≤ 1 →
      List.count "Pretendard"
        ((addFavoriteFont (addFavoriteFont st "Pretendard").2 "Pretendard").2).favoriteFonts
        = 1) := by
  refine ⟨fun h => ?_, fun h => ?_, fun h => ?_⟩
  · simp only [addFavoriteFont, if_pos h]
  · simp only [addFavoriteFont, if_neg h]
  · have htrim : jsTrim "Pretendard" = "Pretendard" := by decide
    by_cases hmem : "Pretendard" ∈ st.favoriteFonts
    · have h1 : addFavoriteFont st "Pretendard" = (false, st) := by
        simp only [addFavoriteFont, htrim]
        rw [if_pos (Or.inr hmem)]
      rw [h1]
      rw [show ((false, st) : Bool × UserStorage).2 = st from rfl]
      rw [h1]
      rw [show ((false, st) : Bool × UserStorage).2 = st from rfl]
      have hge : 1 ≤ List.count "Pretendard" st.favoriteFonts :=
        List.one_le_count_iff.mpr hmem
      omega
    · have hcond : ¬ ("Pretendard" = "" ∨ "Pretendard" ∈ st.favoriteFonts) := by
        rintro (h' | h')
        · exact absurd h' (by decide)
        · exact hmem h'
      have h1 : addFavoriteFont st "Pretendard" =
          (true, { st with favoriteFonts := st.favoriteFonts ++ ["Pretendard"] }) := by
        simp only [addFavoriteFont, htrim]
        rw [if_neg hcond]
      have hmem2 : "Pretendard" ∈
          ({ st with favoriteFonts := st.favoriteFonts ++ ["Pretendard"] } :
            UserStorage).favoriteFonts := by
        simp
      have h2 : addFavoriteFont
          ({ st with favoriteFonts := st.favoriteFonts ++ ["Pretendard"] }) "Pretendard" =
          (false, { st with favoriteFonts := st.favoriteFonts ++ ["Pretendard"] }) := by
        simp only [addFavoriteFont, htrim]
        rw [if_pos (Or.inr hmem2)]
      rw [h1]
      rw [show ((true, { st with favoriteFonts := st.favoriteFonts ++ ["Pretendard"] }) :
        Bool × UserStorage).2 =
        { st with favoriteFonts := st.favoriteFonts ++ ["Pretendard"] } from rfl]
      rw [h2]
      rw [show ((false, { st with favoriteFonts := st.favoriteFonts ++ ["Pretendard"] }) :
        Bool × UserStorage).2 =
        { st with favoriteFonts := st.favoriteFonts ++ ["Pretendard"] } from rfl]
      have hz : List.count "Pretendard" st.favoriteFonts = 0 :=
        List.count_eq_zero_of_not_mem hmem
      simp only [List.count_append, hz]
      decide

theorem addFavoriteFont_spec_witness :
    addFavoriteFont DEFAULT_STORAGE " " = (false, DEFAULT_STORAGE) ∧
    List.count "Pretendard"
      ((addFavoriteFont (addFavoriteFont DEFAULT_STORAGE "Pretendard").2
        "Pretendard").2).favoriteFonts = 1 :=
  ⟨(addFavoriteFont_spec DEFAULT_STORAGE " ").1 (Or.inl (by decide)),
   (addFavoriteFont_spec DEFAULT_STORAGE "Pretendard").2.2 (by decide)⟩

/-- C2: `setSiteSettings` followed by `getSiteSettings` on the same domain
returns exactly the stored value: the upsert overwrites the entry wholesale,
with no partial merge at the store layer. -/
theorem setSiteSettings_roundtrip (st : UserStorage) (domain : String)
    (cfg : SiteSettings) :
    getSiteSettings (setSiteSettings st domain cfg) domain = some cfg := by
  simp only [getSiteSettings, setSiteSettings]
  exact objGet_objSet st.siteSettings domain cfg

/-- A stored document already holding the preset id that `generateId`
produces for clock reading `0` and random digits `"abc"`. -/
def collidingStorage : UserStorage :=
  { favoriteFonts := [], siteSettings := [],
    presets := [{ id := "0abc", name := "existing", fontFamily := "F",
                  styles := DEFAULT_SITE_STYLES }] }

/-- C3 counterexample: `addPreset` performs no collision check, so when the
generated id (time-based plus random suffix) already occurs among the stored
presets, the returned preset's id equals an existing preset's id. -/
theorem addPreset_id_collision :
    ((addPreset 0 "abc" collidingStorage "newPreset" "G" DEFAULT_SITE_STYLES).1).id
      = "0abc" ∧
    "0abc" ∈ collidingStorage.presets.map StylePreset.id := by
  constructor
  · decide
  · decide

/-- C3 (amended): the preset returned by `addPreset` carries exactly the
freshly generated id and is appended without any collision check; its id is
distinct from every stored preset's id precisely when the generated id does
not already occur among them. -/
theorem addPreset_id_spec (now : Nat) (rand : String) (st : UserStorage)
    (name fontFamily : String) (styles : SiteStyles) :
    ((addPreset now rand st name fontFamily styles).1).id = generateId now rand ∧
    ((addPreset now rand st name fontFamily styles).2).presets =
      st.presets ++ [(addPreset now rand st name fontFamily styles).1] ∧
    (generateId now rand ∉ st.presets.map StylePreset.id →
      ∀ p ∈ st.presets,
        ((addPreset now rand st name fontFamily styles).1).id ≠ p.id) := by
  refine ⟨rfl, rfl, fun h p hp heq => h ?_⟩
  have heq' : generateId now rand = p.id := heq
  rw [heq']
  exact List.mem_map_of_mem StylePreset.id hp

theorem addPreset_id_spec_witness :
    ((addPreset 5 "xyz" DEFAULT_STORAGE "n" "F" DEFAULT_SITE_STYLES).1).id =
      generateId 5 "xyz" ∧
    (∀ p ∈ DEFAULT_STORAGE.presets,
      ((addPreset 5 "xyz" DEFAULT_STORAGE "n" "F" DEFAULT_SITE_STYLES).1).id ≠ p.id) :=
  ⟨(addPreset_id_spec 5 "xyz" DEFAULT_STORAGE "n" "F" DEFAULT_SITE_STYLES).1,
   (addPreset_id_spec 5 "xyz" DEFAULT_STORAGE "n" "F" DEFAULT_SITE_STYLES).2.2
     (by decide)⟩

/-- C8: `updatePreset` is a no-op when no stored preset has the given id;
when the (first) preset with that id sits at index `i`, the persisted
document replaces exactly that entry with the trimmed name, the given
fontFamily and a copy of the given styles, keeping the preset's id and every
other entry (and every other document field) unchanged. -/
theorem updatePreset_spec (st : UserStorage) (presetId name fontFamily : String)
    (styles : SiteStyles) :
    ((∀ p ∈ st.presets, p.id ≠ presetId) →
      updatePreset st presetId name fontFamily styles = st) ∧
    (∀ i p, st.presets.findIdx? (fun q => q.id = presetId) = some i →
      st.presets[i]? = some p →
      updatePreset st presetId name fontFamily styles =
        { st with
            presets := st.presets.set i
              ({ p with name := jsTrim name, fontFamily := fontFamily, styles := styles }) } ∧
      ({ p with name := jsTrim name, fontFamily := fontFamily, styles := styles }).id
        = p.id ∧
      (∀ j, j ≠ i →
        (st.presets.set i
          ({ p with name := jsTrim name, fontFamily := fontFamily, styles := styles }))[j]?
          = st.presets[j]?)) := by
  constructor
  · intro h
    have hnone : st.presets.findIdx? (fun q => q.id = presetId) = none := by
      rw [List.findIdx?_eq_none_iff]
      intro q hq
      simpa using h q hq
    simp only [updatePreset, hnone]
  · intro i p hfind hget
    exact ⟨by simp only [updatePreset, hfind, hget], rfl,
      fun j hj => List.getElem?_set_ne (Ne.symm hj)⟩

def updateWPreset : StylePreset :=
  { id := "a", name := "old", fontFamily := "F", styles := DEFAULT_SITE_STYLES }

def updateW : UserStorage :=
  { favoriteFonts := [], siteSettings := [], presets := [updateWPreset] }

theorem updatePreset_spec_witness :
    updatePreset updateW "zz" "n" "F" DEFAULT_SITE_STYLES = updateW ∧
    updatePreset updateW "a" " n2 " "G" DEFAULT_SITE_STYLES =
      { updateW with
          presets := updateW.presets.set 0
            ({ updateWPreset with
                name := jsTrim " n2 "
                fontFamily := "G"
                styles := DEFAULT_SITE_STYLES }) } :=
  ⟨(updatePreset_spec updateW "zz" "n" "F" DEFAULT_SITE_STYLES).1 (by decide),
   ((updatePreset_spec updateW "a" " n2 " "G" DEFAULT_SITE_STYLES).2 0 updateWPreset
     (by decide) rfl).1⟩

/-- C9: `extractDomain` returns the parsed hostname for any URL whose scheme
is not an internal/privileged browser scheme; it returns `none` (not an
error) for the internal browser schemes `chrome:` and `edge:`, for `about:`,
for the extension's own scheme `chrome-extension:`, and for any string the
URL parser rejects. -/
theorem extractDomain_spec (parseURL : String → Option URLObj) (url : String) :
    (parseURL url = none → extractDomain parseURL url = none) ∧
    (∀ u, parseURL url = some u →
      ((u.protocol = "chrome:" ∨ u.protocol = "edge:" ∨ u.protocol = "about:" ∨
          u.protocol = "chrome-extension:") →
        extractDomain parseURL url = none) ∧
      (¬ (u.protocol = "chrome:" ∨ u.protocol = "edge:" ∨ u.protocol = "about:" ∨
          u.protocol = "chrome-extension:") →
        extractDomain parseURL url = some u.hostname)) := by
  constructor
  · intro h
    simp only [extractDomain, h]
  · intro u hu
    constructor
    · intro hproto
      simp only [extractDomain, hu, if_pos hproto]
    · intro hproto
      simp only [extractDomain, hu, if_neg hproto]

theorem extractDomain_spec_witness :
    extractDomain (fun _ => some ⟨"https:", "example.com"⟩) "https://example.com/" =
      some "example.com" ∧
    extractDomain (fun _ => some ⟨"chrome:", "settings"⟩) "chrome://settings" = none ∧
    extractDomain (fun _ => none) "not a url" = none :=
  ⟨((extractDomain_spec (fun _ => some ⟨"https:", "example.com"⟩)
      "https://example.com/").2 ⟨"https:", "example.com"⟩ rfl).2 (by decide),
   ((extractDomain_spec (fun _ => some ⟨"chrome:", "settings"⟩)
      "chrome://settings").2 ⟨"chrome:", "settings"⟩ rfl).1 (Or.inl rfl),
   (extractDomain_spec (fun _ => none) "not a url").1 rfl⟩

/-- C10: the `APPLY_STYLES` message handler injects the rendered style
element whenever the message carries a non-null `settings` value — without
consulting `isActive`, unlike the storage load path, which removes the
element for an inactive entry — and removes the element only when the
`settings` field is null. -/
theorem applyStyles_message_spec (msg : ApplyStylesMessage) (dom : Option String) :
    (msg.action = "APPLY_STYLES" →
      (∀ s, msg.settings = some s → (onMessage msg dom).1 = some (generateCSS s)) ∧
      (msg.settings = none → (onMessage msg dom).1 = none) ∧
      (msg.settings ≠ none → (onMessage msg dom).1 ≠ none)) ∧
    (∀ s domain m dom', s.isActive = false → objGet m domain = some s →
      loadAndApplySettings domain m dom' = none) := by
  constructor
  · intro ha
    refine ⟨fun s hs => ?_, fun hn => ?_, fun hn => ?_⟩
    · simp only [onMessage, if_pos ha, hs, injectStyles]
    · simp only [onMessage, if_pos ha, hn, removeStyles]
    · cases hset : msg.settings with
      | none => exact absurd hset hn
      | some s =>
          simp only [onMessage, if_pos ha, hset, injectStyles]
          exact fun h => Option.noConfusion h
  · intro s domain m dom' hact hget
    simp only [loadAndApplySettings, hget, hact, removeStyles]
    simp

def inactiveSettings : SiteSettings :=
  { isActive := false, fontFamily := "Pretendard", styles := DEFAULT_SITE_STYLES }

def applyMsg : ApplyStylesMessage :=
  { action := "APPLY_STYLES", domain := "example.com", settings := some inactiveSettings }

theorem applyStyles_message_spec_witness :
    (onMessage applyMsg none).1 = some (generateCSS inactiveSettings) ∧
    loadAndApplySettings "example.com" [("example.com", inactiveSettings)] none = none :=
  ⟨((applyStyles_message_spec applyMsg none).1 rfl).1 inactiveSettings rfl,
   (applyStyles_message_spec applyMsg none).2 inactiveSettings "example.com"
      [("example.com", inactiveSettings)] none rfl (by simp [objGet])⟩

/-! ## Claim theorems: style renderer -/

/-- C4: when `fontWeight` is the literal `"inherit"`, the rendered CSS
contains no `font-weight` text at all (under the sanity assumption that the
free-form string fields do not themselves smuggle in a `font-weight`
substring); for any other weight value `w`, the rendered CSS contains the
declaration `font-weight: w !important;`. -/
theorem fontWeight_render_spec (s : SiteSettings) :
    (s.styles.fontWeight = "inherit" →
      ¬ "font-weight".data <:+: s.fontFamily.data →
      ¬ "font-weight".data <:+: s.styles.letterSpacing.data →
      ¬ "font-weight".data <:+: s.styles.wordSpacing.data →
      ¬ "font-weight".data <:+: (generateCSS s).data) ∧
    (s.styles.fontWeight ≠ "inherit" →
      ("font-weight: " ++ s.styles.fontWeight ++ " !important;").data <:+:
        (generateCSS s).data) := by
  constructor
  · intro hinh hf hl hws
    have hPne : ("font-weight".data : List Char) ≠ [] := by decide
    apply not_infix_of_countSub_eq_zero hPne
    rw [countSub_generateCSS_split _ _ (by decide),
        countSub_cssHtmlRule _ _ (by decide) (by decide),
        countSub_cssElementRule _ _ (by decide) (by decide) (by decide) (by decide)]
    have zf := (countSub_eq_zero_iff hPne _).mpr hf
    have zl := (countSub_eq_zero_iff hPne _).mpr hl
    have zw := (countSub_eq_zero_iff hPne _).mpr hws
    have zpct : countSub "font-weight".data
        (fontSizePercent s.styles.fontSizeScale).data = 0 :=
      countSub_eq_zero_of_missingChar 'f' (by decide) _
        (fun hmem => absurd (fontSizePercent_mem _ _ hmem) (by decide))
    have zlh : countSub "font-weight".data
        (jsNumToString s.styles.lineHeight).data = 0 :=
      countSub_eq_zero_of_missingChar 'f' (by decide) _
        (fun hmem => absurd (jsNumToString_mem _ _ hmem) (by decide))
    have zfw : countSub "font-weight".data
        (fontWeightCSS s.styles.fontWeight).data = 0 := by
      rw [hinh, fontWeightCSS_inherit]
      rfl
    rw [zf, zl, zw, zpct, zlh, zfw]
    decide
  · intro hne
    have hsplit : (generateCSS s).data =
        (cssHtmlRule s).data ++ (cssElementRule s).data := by
      rw [generateCSS_eq_rules, String.data_append]
    rw [hsplit]
    apply infix_append_left
    rw [cssElementRule_data]
    have hfwc : (fontWeightCSS s.styles.fontWeight).data =
        ("font-weight: " ++ s.styles.fontWeight ++ " !important;").data := by
      rw [fontWeightCSS, if_neg hne]
    rw [hfwc]
    refine ⟨elementSelector.data ++ (cssLit2.data ++ (s.fontFamily.data ++ (cssLit3.data ++
      ((jsNumToString s.styles.lineHeight).data ++ (cssLit4.data ++
        (s.styles.letterSpacing.data ++ (cssLit5.data ++ (s.styles.wordSpacing.data ++
          cssLit6.data)))))))), cssLit7.data, ?_⟩
    simp [String.data_append, List.append_assoc]

def boldSettings : SiteSettings :=
  { isActive := true, fontFamily := "Pretendard",
    styles := { lineHeight := 2, letterSpacing := "0px", wordSpacing := "0px",
                fontWeight := "700", fontSizeScale := 1 } }

theorem fontWeight_render_spec_witness :
    ¬ "font-weight".data <:+: (generateCSS inactiveSettings).data ∧
    "font-weight: 700 !important;".data <:+: (generateCSS boldSettings).data := by
  constructor
  · exact (fontWeight_render_spec inactiveSettings).1 rfl (by decide) (by decide) (by decide)
  · have h := (fontWeight_render_spec boldSettings).2 (by decide)
    rw [show ("font-weight: " ++ boldSettings.styles.fontWeight ++ " !important;") =
      "font-weight: 700 !important;" from by decide] at h
    exact h

/-- Settings whose `fontSizeScale` is `0`: the source's `|| 1` fallback then
renders `font-size: 100%`, not the `0%` the claim's formula demands. -/
def cexSettings : SiteSettings :=
  { isActive := true, fontFamily := "Pretendard",
    styles := { lineHeight := 2, letterSpacing := "0px", wordSpacing := "0px",
                fontWeight := "inherit", fontSizeScale := 0 } }

/-- C5 counterexample: at `fontSizeScale = 0` the claim's percentage
`fontSizeScale * 100 = 0` does not appear in the rendered CSS at all; the
renderer instead falls back to `1` (the `|| 1` of the source) and rounds,
emitting `font-size: 100%`. -/
theorem fontSize_claim_counterexample :
    cexSettings.styles.fontSizeScale * 100 = 0 ∧
    ¬ "font-size: 0".data <:+: (generateCSS cexSettings).data ∧
    "font-size: 100% !important;".data <:+: (generateCSS cexSettings).data := by
  have hps : fontSizePercent cexSettings.styles.fontSizeScale = "100" := fontSizePercent_zero
  have hlh : jsNumToString cexSettings.styles.lineHeight = "2" := jsNumToString_two
  have hfw : fontWeightCSS cexSettings.styles.fontWeight = "" := fontWeightCSS_inherit
  refine ⟨by norm_num [cexSettings], ?_, ?_⟩
  · simp only [generateCSS, hps, hlh, hfw]
    decide
  · simp only [generateCSS, hps, hlh, hfw]
    decide

/-- C5 (amended): the rendered CSS expresses `font-size` exactly once, inside
the root (`html`) rule only — never in the element-wide rule — as the
percentage `toFixed(0)`-rounding of `(fontSizeScale or 1 when falsy) * 100`;
whenever `fontSizeScale * 100` is a positive integer `n`, that percentage is
exactly `n`.  (The sanity hypotheses keep the free-form string fields from
smuggling in a `font-size` substring.) -/
theorem fontSize_render_spec (s : SiteSettings)
    (hf : ¬ "font-size".data <:+: s.fontFamily.data)
    (hl : ¬ "font-size".data <:+: s.styles.letterSpacing.data)
    (hw : ¬ "font-size".data <:+: s.styles.wordSpacing.data)
    (hwt : ¬ "font-size".data <:+: s.styles.fontWeight.data) :
    countSub "font-size".data (generateCSS s).data = 1 ∧
    ¬ "font-size".data <:+: (cssElementRule s).data ∧
    ("font-size: " ++ fontSizePercent s.styles.fontSizeScale ++ "% !important;").data <:+:
      (cssHtmlRule s).data ∧
    (∀ n : ℕ, 0 < n → s.styles.fontSizeScale * 100 = n →
      fontSizePercent s.styles.fontSizeScale = natToDec n) := by
  have hPne : ("font-size".data : List Char) ≠ [] := by decide
  have zf := (countSub_eq_zero_iff hPne _).mpr hf
  have zl := (countSub_eq_zero_iff hPne _).mpr hl
  have zw := (countSub_eq_zero_iff hPne _).mpr hw
  have zpct : countSub "font-size".data
      (fontSizePercent s.styles.fontSizeScale).data = 0 :=
    countSub_eq_zero_of_missingChar 'f' (by decide) _
      (fun hmem => absurd (fontSizePercent_mem _ _ hmem) (by decide))
  have zlh : countSub "font-size".data
      (jsNumToString s.styles.lineHeight).data = 0 :=
    countSub_eq_zero_of_missingChar 'f' (by decide) _
      (fun hmem => absurd (jsNumToString_mem _ _ hmem) (by decide))
  have zfwc : countSub "font-size".data
      (fontWeightCSS s.styles.fontWeight).data = 0 := by
    by_cases hinh : s.styles.fontWeight = "inherit"
    · rw [hinh, fontWeightCSS_inherit]
      rfl
    · rw [countSub_fontWeightCSS _ _ hinh (by decide),
        (countSub_eq_zero_iff hPne _).mpr hwt]
      decide
  have helem : countSub "font-size".data (cssElementRule s).data = 0 := by
    rw [countSub_cssElementRule _ _ (by decide) (by decide) (by decide) (by decide),
      zf, zl, zw, zlh, zfwc]
    decide
  refine ⟨?_, not_infix_of_countSub_eq_zero hPne helem, ?_, ?_⟩
  · rw [countSub_generateCSS_split _ _ (by decide),
      countSub_cssHtmlRule _ _ (by decide) (by decide), helem, zpct]
    decide
  · rw [cssHtmlRule_data]
    refine ⟨"\n    html \x7b\n      ".data, "\n    \x7d\n    ".data, ?_⟩
    rw [show cssLit0.data = "\n    html \x7b\n      ".data ++ "font-size: ".data
        from by decide,
      show cssLit1.data = "% !important;".data ++ "\n    \x7d\n    ".data from by decide]
    simp [String.data_append, List.append_assoc]
  · intro n hn hqn
    clear zf zl zw zpct zlh zfwc helem
    have hq0 : s.styles.fontSizeScale ≠ 0 := by
      intro h0
      rw [h0] at hqn
      have hzn : (n : ℚ) = 0 := by rw [← hqn]; ring
      have : n = 0 := by exact_mod_cast hzn
      omega
    rw [fontSizePercent, if_neg hq0, hqn]
    have hfloor : jsRound0 ((n : ℕ) : ℚ) = (n : ℤ) := by
      have hnn : ¬ ((n : ℚ) < 0) := (by positivity : (0 : ℚ) ≤ (n : ℚ)).not_lt
      rw [jsRound0, if_neg hnn]
      rw [Int.floor_eq_iff]
      constructor
      · push_cast
        linarith
      · push_cast
        linarith
    have hnn2 : ¬ ((n : ℤ) < 0) := (by positivity : (0 : ℤ) ≤ (n : ℤ)).not_lt
    rw [hfloor, intToDec, if_neg hnn2]
    simp

def w5Settings : SiteSettings :=
  { isActive := true, fontFamily := "Pretendard",
    styles := { lineHeight := 2, letterSpacing := "0px", wordSpacing := "0px",
                fontWeight := "inherit", fontSizeScale := 1 } }

theorem fontSize_render_spec_witness :
    countSub "font-size".data (generateCSS w5Settings).data = 1 ∧
    fontSizePercent w5Settings.styles.fontSizeScale = natToDec 100 :=
  ⟨(fontSize_render_spec w5Settings (by decide) (by decide) (by decide) (by decide)).1,
   (fontSize_render_spec w5Settings (by decide) (by decide) (by decide) (by decide)).2.2.2
     100 (by norm_num) (by norm_num [w5Settings])⟩

/-- C6: the element-wide rule (the one carrying `font-family` and the spacing
declarations) is guarded by the selector `*` followed by the `:not()` chain
built from `iconExclusions`, and that chain excludes every selector of the
fixed exclusion set: the icon class-substring selectors, `svg` and its
descendants (`svg *`), the monospace/code containers `code`, `pre`, `kbd`,
and the `mono`/`monospace` class selectors — so in particular the
`font-family` override does not target an `svg` subtree or an element whose
class contains `icon`. -/
theorem exclusionSelectors_spec (s : SiteSettings) :
    generateCSS s = cssHtmlRule s ++ cssElementRule s ∧
    (elementSelector.data ++ cssLit2.data) <+: (cssElementRule s).data ∧
    elementSelector = "*" ++ notSelectors ∧
    ":not([class*=\"icon\"])".data <:+: elementSelector.data ∧
    ":not([class*=\"Icon\"])".data <:+: elementSelector.data ∧
    ":not([class*=\"fa-\"])".data <:+: elementSelector.data ∧
    ":not([class*=\"material-icons\"])".data <:+: elementSelector.data ∧
    ":not([class*=\"glyphicon\"])".data <:+: elementSelector.data ∧
    ":not([class*=\"emoji\"])".data <:+: elementSelector.data ∧
    ":not(svg)".data <:+: elementSelector.data ∧
    ":not(svg *)".data <:+: elementSelector.data ∧
    ":not(code)".data <:+: elementSelector.data ∧
    ":not(pre)".data <:+: elementSelector.data ∧
    ":not(kbd)".data <:+: elementSelector.data ∧
    ":not(.mono)".data <:+: elementSelector.data ∧
    ":not([class*=\"monospace\"])".data <:+: elementSelector.data := by
  refine ⟨generateCSS_eq_rules s, ?_, rfl, by decide, by decide, by decide, by decide,
    by decide, by decide, by decide, by decide, by decide, by decide, by decide,
    by decide, by decide⟩
  rw [cssElementRule_data, ← List.append_assoc]
  exact List.prefix_append _ _

/-- C7: the style renderer is a pure, deterministic function: deep-equal
(field-by-field equal) inputs produce byte-identical CSS strings. -/
theorem renderCSS_deterministic (a b : SiteSettings)
    (h : SiteSettings.deepEq a b = true) : generateCSS a = generateCSS b := by
  obtain ⟨ia, fa, sa⟩ := a
  obtain ⟨la, lsa, wsa, fwa, fsa⟩ := sa
  obtain ⟨ib, fb, sb⟩ := b
  obtain ⟨lb, lsb, wsb, fwb, fsb⟩ := sb
  simp only [SiteSettings.deepEq, decide_eq_true_eq] at h
  obtain ⟨h1, h2, h3, h4, h5, h6, h7⟩ := h
  subst h1 h2 h3 h4 h5 h6 h7
  rfl

theorem renderCSS_deterministic_witness :
    SiteSettings.deepEq inactiveSettings inactiveSettings = true ∧
    generateCSS inactiveSettings = generateCSS inactiveSettings :=
  ⟨by simp [SiteSettings.deepEq],
   renderCSS_deterministic inactiveSettings inactiveSettings
     (by simp [SiteSettings.deepEq])⟩
